import Mathlib

/-!
Verification of the BME280 MicroPython driver (`bme280.py` and the
`bme280_microbit.py` variant) against its natural-language specification.

The Python code is shallowly embedded: Python integers are unbounded, so they
become `Int`/`Nat`; the arithmetic right shift `>>` on a (possibly negative)
Python integer is floor division by a power of two, `<<` is multiplication by a
power of two, and `//` is floor division (`Int.fdiv`).  Register traffic is
modelled as an explicit list of bus operations, and the polling loop as a
fuel-indexed iteration function.
-/

namespace BME280

/-! ### Python integer primitives -/

/-- Python `x << n` on an unbounded integer: multiplication by `2 ^ n`. -/
def shl (x : Int) (n : Nat) : Int := x * 2 ^ n

/-- Python `x >> n` on an unbounded integer: arithmetic shift, i.e. floor
division by `2 ^ n`.  `Int` division by a positive divisor is exactly floor
division. -/
def sar (x : Int) (n : Nat) : Int := x / 2 ^ n

/-- Python `x // y`: floor division for every sign combination. -/
def floordiv (x y : Int) : Int := Int.fdiv x y

/-! ### Calibration coefficients

The decoded calibration set of `bme280.py` (`self.dig_T1 .. self.dig_H6`).
`dig_T1` and `dig_P1` are decoded with the unsigned format `H`, the other
16-bit fields with the signed format `h`; `dig_H1`, `dig_H3` are unsigned
bytes, `dig_H6` a signed byte and `dig_H4`, `dig_H5` packed 12-bit values. -/

structure Calib where
  dig_T1 : Int
  dig_T2 : Int
  dig_T3 : Int
  dig_P1 : Int
  dig_P2 : Int
  dig_P3 : Int
  dig_P4 : Int
  dig_P5 : Int
  dig_P6 : Int
  dig_P7 : Int
  dig_P8 : Int
  dig_P9 : Int
  dig_H1 : Int
  dig_H2 : Int
  dig_H3 : Int
  dig_H4 : Int
  dig_H5 : Int
  dig_H6 : Int
deriving DecidableEq

/-- The ranges a calibration set decoded by `__init__` can actually take:
unsigned 16-bit for `dig_T1`/`dig_P1`, signed 16-bit for the other 16-bit
fields, unsigned 8-bit for `dig_H1`/`dig_H3`, 12-bit signed for the packed
`dig_H4`/`dig_H5` and signed 8-bit for `dig_H6`. -/
def Calib.valid (c : Calib) : Prop :=
  0 ≤ c.dig_T1 ∧ c.dig_T1 < 65536 ∧
  -32768 ≤ c.dig_T2 ∧ c.dig_T2 < 32768 ∧
  -32768 ≤ c.dig_T3 ∧ c.dig_T3 < 32768 ∧
  0 ≤ c.dig_P1 ∧ c.dig_P1 < 65536 ∧
  -32768 ≤ c.dig_P2 ∧ c.dig_P2 < 32768 ∧
  -32768 ≤ c.dig_P3 ∧ c.dig_P3 < 32768 ∧
  -32768 ≤ c.dig_P4 ∧ c.dig_P4 < 32768 ∧
  -32768 ≤ c.dig_P5 ∧ c.dig_P5 < 32768 ∧
  -32768 ≤ c.dig_P6 ∧ c.dig_P6 < 32768 ∧
  -32768 ≤ c.dig_P7 ∧ c.dig_P7 < 32768 ∧
  -32768 ≤ c.dig_P8 ∧ c.dig_P8 < 32768 ∧
  -32768 ≤ c.dig_P9 ∧ c.dig_P9 < 32768 ∧
  0 ≤ c.dig_H1 ∧ c.dig_H1 < 256 ∧
  -32768 ≤ c.dig_H2 ∧ c.dig_H2 < 32768 ∧
  0 ≤ c.dig_H3 ∧ c.dig_H3 < 256 ∧
  -2048 ≤ c.dig_H4 ∧ c.dig_H4 < 2048 ∧
  -2048 ≤ c.dig_H5 ∧ c.dig_H5 < 2048 ∧
  -128 ≤ c.dig_H6 ∧ c.dig_H6 < 128

instance (c : Calib) : Decidable c.valid := by
  unfold Calib.valid; infer_instance

/-- The all-zero calibration set (a valid decoded set). -/
def calibZero : Calib :=
  ⟨0, 0, 0, 0, 0, 0, 0, 0, 0, 0, 0, 0, 0, 0, 0, 0, 0, 0⟩

/-! ### Temperature compensation (`read_compensated_data`, lines 224-231) -/

/-- The temperature stage of `read_compensated_data`, transcribed
statement-by-statement from `bme280.py` lines 224-231.  Returns
`(t_fine, temp)`. -/
def tempStage (raw_temp : Int) (c : Calib) : Int × Int :=
  let var1 := (sar raw_temp 3 - shl c.dig_T1 1) * sar c.dig_T2 11
  let var2 := sar raw_temp 4 - c.dig_T1
  let var2 := var2 * (sar raw_temp 4 - c.dig_T1)
  let var2 := sar (sar var2 12 * c.dig_T3) 14
  let t_fine := var1 + var2
  (t_fine, sar (t_fine * 5 + 128) 8)

/-- The `t_fine` intermediate produced by the temperature stage. -/
def tFine (raw_temp : Int) (c : Calib) : Int := (tempStage raw_temp c).1

/-- Modelled from the spec words of C1: `var1 = ((raw_t>>3) - (T1<<1)) *
(T2>>11)`, `var2 = (((raw_t>>4)-T1) * ((raw_t>>4)-T1) >> 12) * T3 >> 14`,
`t_fine = var1+var2`, `temperature = (t_fine*5 + 128) >> 8`; used as the
reference side of the refinement claim C1. -/
def tempStageSpec (raw_t : Int) (c : Calib) : Int × Int :=
  let var1 := (sar raw_t 3 - shl c.dig_T1 1) * sar c.dig_T2 11
  let var2 := sar (sar ((sar raw_t 4 - c.dig_T1) * (sar raw_t 4 - c.dig_T1)) 12 * c.dig_T3) 14
  (var1 + var2, sar ((var1 + var2) * 5 + 128) 8)

/-! ### Pressure compensation (`read_compensated_data`, lines 234-248) -/

/-- The value the local variable `var1` holds at the `if var1 == 0` test of
the pressure stage (`bme280.py` lines 234-241). -/
def pressureVar1 (t_fine : Int) (c : Calib) : Int :=
  let v := t_fine - 128000
  let var1 := sar (v * v * c.dig_P3) 8 + shl (v * c.dig_P2) 12
  sar ((shl 1 47 + var1) * c.dig_P1) 33

/-- The value the local variable `var2` holds at the `if var1 == 0` test of
the pressure stage (`bme280.py` lines 235-237). -/
def pressureVar2 (t_fine : Int) (c : Calib) : Int :=
  let v := t_fine - 128000
  v * v * c.dig_P6 + shl (v * c.dig_P5) 17 + shl c.dig_P4 35

/-- The else-branch of the pressure stage (`bme280.py` lines 244-248): the
division by `var1` and the remaining steps of the chain. -/
def pressureChain (t_fine raw_press : Int) (c : Calib) : Int :=
  let p := 1048576 - raw_press
  let p := floordiv ((shl p 31 - pressureVar2 t_fine c) * 3125) (pressureVar1 t_fine c)
  let v1 := sar (c.dig_P9 * sar p 13 * sar p 13) 25
  let v2 := sar (c.dig_P8 * p) 19
  sar (p + v1 + v2) 8 + shl c.dig_P7 4

/-- The pressure stage of `read_compensated_data`, transcribed
statement-by-statement from `bme280.py` lines 234-248. -/
def pressureStage (t_fine raw_press : Int) (c : Calib) : Int :=
  let var1 := t_fine - 128000
  let var2 := var1 * var1 * c.dig_P6
  let var2 := var2 + shl (var1 * c.dig_P5) 17
  let var2 := var2 + shl c.dig_P4 35
  let var1 := sar (var1 * var1 * c.dig_P3) 8 + shl (var1 * c.dig_P2) 12
  let var1 := sar ((shl 1 47 + var1) * c.dig_P1) 33
  if var1 = 0 then 0
  else
    let p := 1048576 - raw_press
    let p := floordiv ((shl p 31 - var2) * 3125) var1
    let var1 := sar (c.dig_P9 * sar p 13 * sar p 13) 25
    let var2 := sar (c.dig_P8 * p) 19
    sar (p + var1 + var2) 8 + shl c.dig_P7 4

/-! ### Humidity compensation (`read_compensated_data`, lines 251-260) -/

/-- The humidity value before clamping (`bme280.py` lines 251-257). -/
def humidityPre (t_fine raw_hum : Int) (c : Calib) : Int :=
  let h := t_fine - 76800
  let h := sar (shl raw_hum 14 - shl c.dig_H4 20 - c.dig_H5 * h + 16384) 15 *
    sar ((sar (sar (h * c.dig_H6) 10 * (sar (h * c.dig_H3) 11 + 32768)) 10 + 2097152) *
      c.dig_H2 + 8192) 14
  h - sar (sar (sar h 15 * sar h 15) 7 * c.dig_H1) 4

/-- The humidity value after the two clamping statements
(`bme280.py` lines 258-259). -/
def humidityClamped (t_fine raw_hum : Int) (c : Calib) : Int :=
  let h := humidityPre t_fine raw_hum c
  let h := if h < 0 then 0 else h
  if h > 419430400 then 419430400 else h

/-- The humidity output of `read_compensated_data` (`bme280.py` line 260):
the clamped value shifted right by 12. -/
def humidityStage (t_fine raw_hum : Int) (c : Calib) : Int :=
  sar (humidityClamped t_fine raw_hum c) 12

/-! ### Measurement wait time (`read_raw_data`, lines 182-196) -/

/-- The oversampling levels that are not `OSAMPLE_0` (skip), the list
`osamples_1_16` of `read_raw_data`. -/
def osamples_1_16 : List Nat := [1, 2, 3, 4, 5]

/-- The microsecond wait time computed by `read_raw_data`
(`bme280.py` lines 189-195). -/
def sleepTime (temperature_mode pressure_mode humidity_mode : Nat) : Nat :=
  let s := 1250
  let s := if temperature_mode ∈ osamples_1_16 then
    s + 2300 * (1 <<< temperature_mode) else s
  let s := if pressure_mode ∈ osamples_1_16 then
    s + (575 + 2300 * (1 <<< pressure_mode)) else s
  if humidity_mode ∈ osamples_1_16 then
    s + (575 + 2300 * (1 <<< humidity_mode)) else s

/-! ### Status polling (`read_raw_data`, lines 198-203)

The loop `while unpack(...)[0] & 0x08: sleep(0.001)` re-reads the 2-byte
status register each iteration.  `status i` is the value the i-th read
returns; `pollExitsFrom status i n` says whether the loop, currently about to
perform read `i`, has exited within `n` further iterations.  The source has
no iteration bound and raises no error inside the loop. -/

def pollExitsFrom (status : Nat → Nat) (i : Nat) : Nat → Bool
  | 0 => false
  | fuel + 1 => if status i &&& 0x08 == 0 then true else pollExitsFrom status (i + 1) fuel

/-! ### Device object state (`__init__` line 148, `read_compensated_data`) -/

/-- The fields of the driver object that `read_compensated_data` touches:
the immutable decoded calibration set and the mutable `self.t_fine`
(initialised to 0 by `__init__` line 148). -/
structure DeviceState where
  calib : Calib
  t_fine : Int
deriving DecidableEq

/-- `read_compensated_data` on a given raw sample, transcribed from
`bme280.py` lines 222-260: the temperature stage assigns `self.t_fine`
(line 230), and the pressure and humidity stages read that freshly assigned
field.  Returns the post-call object state and the three outputs. -/
def read_compensated_data (s : DeviceState) (raw_temp raw_press raw_hum : Int) :
    DeviceState × Int × Int × Int :=
  let var1 := (sar raw_temp 3 - shl s.calib.dig_T1 1) * sar s.calib.dig_T2 11
  let var2 := sar raw_temp 4 - s.calib.dig_T1
  let var2 := var2 * (sar raw_temp 4 - s.calib.dig_T1)
  let var2 := sar (sar var2 12 * s.calib.dig_T3) 14
  let s := DeviceState.mk s.calib (var1 + var2)
  let temp := sar (s.t_fine * 5 + 128) 8
  let pressure := pressureStage s.t_fine raw_press s.calib
  let humidity := humidityStage s.t_fine raw_hum s.calib
  (s, temp, pressure, humidity)

/-! ### The `result` argument of `read_compensated_data` (lines 262-268) -/

/-- Python item assignment `l[i] = v` on a list-like container: succeeds with
the updated container when `i` is in range and raises `IndexError` (modelled
as `none`) otherwise. -/
def listSet? (l : List Int) (i : Nat) (v : Int) : Option (List Int) :=
  if i < l.length then some (l.set i v) else none

/-- The tail of `read_compensated_data` (`bme280.py` lines 262-268): `if
result:` (Python truthiness: `none` models `None`, an empty list is falsy)
writes the three outputs into indices 0, 1, 2 of the passed container and
returns it, otherwise a fresh 3-element array is returned.  The `Bool` of the
returned pair records whether the returned container is the object that was
passed in; `none` as overall result models a raised `IndexError`. -/
def returnResult (temp pressure humidity : Int) :
    Option (List Int) → Option (List Int × Bool)
  | some l =>
    if l.isEmpty then some ([temp, pressure, humidity], false)
    else
      match listSet? l 0 temp with
      | none => none
      | some l1 =>
        match listSet? l1 1 pressure with
        | none => none
        | some l2 =>
          match listSet? l2 2 humidity with
          | none => none
          | some l3 => some (l3, true)
  | none => some ([temp, pressure, humidity], false)

/-! ### Calibration block decoding (`__init__`, lines 124-139)

A register block is a list of bytes (each `< 256`); out-of-range accesses
default to 0 (the blocks the driver reads always have the full length).
`ustruct.unpack` with a `<...>` format walks the block sequentially, so the
decoder is modelled as a sequential parser over a field-type list. -/

/-- A field of a little-endian `ustruct` format string: `H` (unsigned
16-bit), `h` (signed 16-bit) or `B` (unsigned byte). -/
inductive FieldT
  | U16
  | S16
  | U8
deriving DecidableEq

/-- Little-endian unsigned 16-bit value at byte offset `i`. -/
def u16le (b : List Nat) (i : Nat) : Nat := b.getD i 0 + 256 * b.getD (i + 1) 0

/-- Little-endian signed 16-bit value at byte offset `i`
(two-complement reading of the `h` format). -/
def s16le (b : List Nat) (i : Nat) : Int :=
  if u16le b i < 32768 then (u16le b i : Int) else (u16le b i : Int) - 65536

/-- Signed byte at offset `i` (the `b` format of `unpack_from`). -/
def s8at (b : List Nat) (i : Nat) : Int :=
  if b.getD i 0 < 128 then (b.getD i 0 : Int) else (b.getD i 0 : Int) - 256

/-- Sequential `unpack`: consume the fields of `fmt` in order starting at
byte offset `off`, yielding the decoded values in order. -/
def parseFields (b : List Nat) : List FieldT → Nat → List Int
  | [], _ => []
  | FieldT.U16 :: fs, off => (u16le b off : Int) :: parseFields b fs (off + 2)
  | FieldT.S16 :: fs, off => s16le b off :: parseFields b fs (off + 2)
  | FieldT.U8 :: fs, off => (b.getD off 0 : Int) :: parseFields b fs (off + 1)

/-- The format `"<HhhHhhhhhhhhBB"` used by `__init__` line 130 for the
26-byte first calibration block: `H h h H h h h h h h h h B B`. -/
def fmtBlock1 : List FieldT :=
  [FieldT.U16, FieldT.S16, FieldT.S16, FieldT.U16,
   FieldT.S16, FieldT.S16, FieldT.S16, FieldT.S16,
   FieldT.S16, FieldT.S16, FieldT.S16, FieldT.S16,
   FieldT.U8, FieldT.U8]

/-- Modelled from the spec words of C4: one little-endian unsigned 16-bit
value, then 11 little-endian signed 16-bit values, then one unused byte and
one unsigned 8-bit value.  (This makes `dig_P1` signed, unlike the source
format, whose fourth field is `H`.) -/
def fmtBlock1Claim : List FieldT :=
  [FieldT.U16, FieldT.S16, FieldT.S16, FieldT.S16,
   FieldT.S16, FieldT.S16, FieldT.S16, FieldT.S16,
   FieldT.S16, FieldT.S16, FieldT.S16, FieldT.S16,
   FieldT.U8, FieldT.U8]

/-- The decoder of the first calibration block, `unpack("<HhhHhhhhhhhhBB",
dig_88_a1)` from `__init__` line 130. -/
def decodeBlock1 (b : List Nat) : List Int := parseFields b fmtBlock1 0

/-- The decoder the claim C4 describes (all 11 16-bit values after the first
one signed). -/
def decodeBlock1Claim (b : List Nat) : List Int := parseFields b fmtBlock1Claim 0

/-- The field layout of the first block by absolute offsets: `dig_T1` as
unsigned 16-bit at 0, `dig_T2`/`dig_T3` signed at 2/4, `dig_P1` as unsigned
16-bit at 6, `dig_P2`..`dig_P9` signed at 8..22, the unused byte at 24 and
`dig_H1` as unsigned byte at 25. -/
def block1Layout (b : List Nat) : List Int :=
  [(u16le b 0 : Int), s16le b 2, s16le b 4, (u16le b 6 : Int),
   s16le b 8, s16le b 10, s16le b 12, s16le b 14,
   s16le b 16, s16le b 18, s16le b 20, s16le b 22,
   (b.getD 24 0 : Int), (b.getD 25 0 : Int)]

/-! ### The packed `dig_H4` / `dig_H5` coefficients

`bme280.py` lines 133-137 sign-extend the bytes at offsets 3 and 5 of the
7-byte second block (`unpack_from("<b", ...)`) and combine nibbles with `<<`
and `|` (Python bitwise or on two-complement integers, `Int.lor`).
`bme280_microbit.py` lines 56-58 use the raw unsigned bytes and combine with
`<<`, `+`, `%` and `>>`. -/

/-- `dig_H4` of `bme280.py`: `(e4_sign << 4) | (dig_e1_e7[4] & 0xF)`. -/
def digH4_main (b : List Nat) : Int :=
  Int.lor (shl (s8at b 3) 4) ((b.getD 4 0 &&& 0xF : Nat) : Int)

/-- `dig_H5` of `bme280.py`: `(e6_sign << 4) | (dig_e1_e7[4] >> 4)`. -/
def digH5_main (b : List Nat) : Int :=
  Int.lor (shl (s8at b 5) 4) ((b.getD 4 0 >>> 4 : Nat) : Int)

/-- `dig_H4` of `bme280_microbit.py`: `(read8(0xE4) << 4) + (a % 16)` with
`a = read8(0xE5)`; register 0xE4 is byte 3 and 0xE5 byte 4 of the block. -/
def digH4_microbit (b : List Nat) : Int :=
  ((b.getD 3 0 <<< 4) + b.getD 4 0 % 16 : Nat)

/-- `dig_H5` of `bme280_microbit.py`: `(read8(0xE6) << 4) + (a >> 4)`. -/
def digH5_microbit (b : List Nat) : Int :=
  ((b.getD 5 0 <<< 4) + (b.getD 4 0 >>> 4) : Nat)

/-! ### Python `str.format` (CPython semantics for the templates of
`__init__`)

`__init__` line 88 builds error messages with `str.format`.  CPython forbids
mixing automatic (`\x7b\x7d`) and manual (`\x7b0\x7d`) field numbering in one
template: the first mixed field raises `ValueError` with a fixed message.
The interpreter below supports exactly the template shapes the driver uses
(literal text, automatic fields, manual numeric fields, no format specs);
fuel is the remaining template length, so it never runs out. -/

inductive FmtMode
  | unset
  | auto
  | manual
deriving DecidableEq

/-- CPython message for a manual field after an automatic one. -/
def autoThenManualMsg : String :=
  "cannot switch from automatic field numbering to manual field specification"

/-- CPython message for an automatic field after a manual one. -/
def manualThenAutoMsg : String :=
  "cannot switch from manual field specification to automatic field numbering"

/-- The decimal digit value of a character, if it is one. -/
def charDigit? (c : Char) : Option Nat :=
  if 48 ≤ c.toNat ∧ c.toNat ≤ 57 then some (c.toNat - 48) else none

def decDigitsGo (acc : Nat) : List Char → Option Nat
  | [] => some acc
  | c :: cs =>
    match charDigit? c with
    | some d => decDigitsGo (10 * acc + d) cs
    | none => none

/-- A non-empty list of decimal digits read as a number (the only manual
field names the driver templates use). -/
def decDigits? : List Char → Option Nat
  | [] => none
  | c :: cs => decDigitsGo 0 (c :: cs)

def pyFormatGo (args : List String) :
    Nat → List Char → FmtMode → Nat → String → Except String String
  | 0, _, _, _, _ => Except.error "format machine out of fuel"
  | _ + 1, [], _, _, acc => Except.ok acc
  | fuel + 1, '\x7b' :: rest, mode, next, acc =>
    let fieldChars := rest.takeWhile (fun ch => ch ≠ '\x7d')
    let rest2 := (rest.dropWhile (fun ch => ch ≠ '\x7d')).drop 1
    if fieldChars.isEmpty then
      match mode with
      | FmtMode.manual => Except.error manualThenAutoMsg
      | _ =>
        match args.get? next with
        | some a => pyFormatGo args fuel rest2 FmtMode.auto (next + 1) (acc ++ a)
        | none => Except.error "Replacement index out of range"
    else
      match mode with
      | FmtMode.auto => Except.error autoThenManualMsg
      | _ =>
        match decDigits? fieldChars with
        | some i =>
          match args.get? i with
          | some a => pyFormatGo args fuel rest2 FmtMode.manual next (acc ++ a)
          | none => Except.error "Replacement index out of range"
        | none => Except.error "unsupported field name"
  | fuel + 1, ch :: rest, mode, next, acc =>
    pyFormatGo args fuel rest mode next (acc.push ch)

/-- `template.format(*args)` with the argument values already converted by
`str` (format calls `str` on each substituted argument). -/
def pyFormat (template : String) (args : List String) : Except String String :=
  pyFormatGo args (template.toList.length + 1) template.toList FmtMode.unset 0 ""

/-- `msg_error` of `__init__` line 88: `Unexpected {} operating mode value
{0}.` — an automatic field followed by a manual one. -/
def modeMsgError : String := "Unexpected \x7b\x7d operating mode value \x7b0\x7d."

/-- `msg_error` of `__init__` line 105. -/
def iirMsgError : String := "Unexpected low pass IIR filter setting value \x7b0\x7d."

/-- `msg_error` of `__init__` line 112. -/
def scaleMsgError : String := "Unexpected temperature scale value \x7b0\x7d."

/-- The message of the `ValueError` that actually propagates out of `raise
ValueError(msg.format(...))`: if `str.format` itself raises, its message is
the one the caller sees. -/
def raisedMessage (r : Except String String) : String :=
  match r with
  | Except.ok m => m
  | Except.error e => e

/-! ### Constructor validation (`__init__`, lines 80-167) -/

/-- One bus transaction issued by the driver. -/
inductive BusOp
  | readfrom_mem (addr reg n : Nat)
  | writeto_mem (addr reg : Nat) (data : List Nat)
deriving DecidableEq

/-- The list `osamples` of `__init__` lines 80-86. -/
def osamplesList : List Nat := [0, 1, 2, 3, 4, 5]

/-- The `__init__` body of `bme280.py` up to and including the three
configuration writes, as far as it is observable: the validation checks in
source order (lines 91-116), each raising `ValueError` with the message the
corresponding `msg_error.format(...)` call actually produces, and then the
sequence of bus transactions of lines 125-167 in order (two calibration
reads, the control write `0x24`, the IIR write `iir << 2` and the humidity
oversampling write).  On a validation failure no bus transaction exists. -/
def bme280_init (temperature_mode pressure_mode humidity_mode : Nat)
    (temperature_scale : String) (iir : Nat) (address : Nat) :
    Except String (List BusOp) :=
  if temperature_mode ∉ osamplesList then
    Except.error (raisedMessage (pyFormat modeMsgError ["temperature", toString temperature_mode]))
  else if pressure_mode ∉ osamplesList then
    Except.error (raisedMessage (pyFormat modeMsgError ["pressure", toString pressure_mode]))
  else if humidity_mode ∉ osamplesList then
    Except.error (raisedMessage (pyFormat modeMsgError ["humidity", toString humidity_mode]))
  else if iir ∉ [0, 1, 2, 3, 4] then
    Except.error (raisedMessage (pyFormat iirMsgError [toString iir]))
  else if temperature_scale ∉ ["C", "F", "K"] then
    Except.error (raisedMessage (pyFormat scaleMsgError [temperature_scale]))
  else
    Except.ok
      [BusOp.readfrom_mem address 0x88 26,
       BusOp.readfrom_mem address 0xE1 7,
       BusOp.writeto_mem address 0xF4 [0x24],
       BusOp.writeto_mem address 0xF5 [iir <<< 2],
       BusOp.writeto_mem address 0xF2 [humidity_mode]]

/-! ### Helper lemmas -/

/-- Arithmetic shift of a non-negative value is non-negative. -/
theorem sar_nonneg {x : Int} (n : Nat) (hx : 0 ≤ x) : 0 ≤ sar x n :=
  Int.ediv_nonneg hx (by positivity)

/-- Arithmetic shift is monotone. -/
theorem sar_mono {x y : Int} (n : Nat) (hxy : x ≤ y) : sar x n ≤ sar y n :=
  Int.ediv_le_ediv (by positivity) hxy

/-- The polling loop never exits, whatever the fuel, when every status read
has bit 3 set. -/
theorem pollStuck_of_bit_set (status : Nat → Nat) (h : ∀ i, status i &&& 0x08 ≠ 0) :
    ∀ i n, pollExitsFrom status i n = false := by
  intro i n
  induction n generalizing i with
  | zero => rfl
  | succ n ih =>
    simp only [pollExitsFrom]
    rw [if_neg, ih]
    simp [h i]

/-- A calibration set whose only non-zero coefficient is `dig_T2 = 32767`. -/
def calibT2 : Calib :=
  ⟨0, 32767, 0, 0, 0, 0, 0, 0, 0, 0, 0, 0, 0, 0, 0, 0, 0, 0⟩

/-- A calibration set whose only non-zero coefficient is `dig_P1 = 1`. -/
def calibP1 : Calib :=
  ⟨0, 0, 0, 1, 0, 0, 0, 0, 0, 0, 0, 0, 0, 0, 0, 0, 0, 0⟩

/-! ### C2 -/

/-- C2: for every raw humidity input, every `t_fine` and every calibration
set, the clamped humidity value of `read_compensated_data` lies in
`[0, 419430400]`, and the humidity output is the right-shift of that already
clamped value (the clamp happens before the final shift). -/
theorem C2_humidity_clamp (t_fine raw_hum : Int) (c : Calib) :
    0 ≤ humidityClamped t_fine raw_hum c ∧
    humidityClamped t_fine raw_hum c ≤ 419430400 ∧
    humidityStage t_fine raw_hum c = sar (humidityClamped t_fine raw_hum c) 12 := by
  refine ⟨?_, ?_, rfl⟩ <;>
    · unfold humidityClamped
      dsimp only
      split_ifs <;> omega

/-! ### C5 -/

/-- C5 (counterexample): for oversampling levels temperature=2, pressure=5,
humidity=1 the wait time computed by `read_raw_data` is not 90000 µs. -/
theorem C5_wait_time_cex : sleepTime 2 5 1 ≠ 90000 := by decide

/-- C5 (amended): for oversampling levels temperature=2, pressure=5,
humidity=1 the wait time computed by `read_raw_data` equals exactly 89800 µs
(1250 + 2300×4 + 575+2300×32 + 575+2300×2). -/
theorem C5_wait_time : sleepTime 2 5 1 = 89800 := by decide

/-! ### C6 -/

/-- C6 (counterexample): with a status source that always reports the
measuring bit 0x08 as set, the status-poll loop of `read_raw_data` does not
terminate within any number of iterations — in particular it never
terminates with a `TimeoutError` (the code contains none). -/
theorem C6_timeout_cex : ¬ ∃ n, pollExitsFrom (fun _ => 0x08) 0 n = true := by
  rintro ⟨n, hn⟩
  rw [pollStuck_of_bit_set (fun _ => 0x08)
    (fun _ => show (0x08 : Nat) &&& 0x08 ≠ 0 by decide) 0 n] at hn
  cases hn

/-- C6 (amended): if every read of the status register reports the measuring
bit (0x08) as set, the status-poll loop of `read_raw_data` is still running
after every number of iterations; the loop is unbounded and no
`TimeoutError` exists in the code. -/
theorem C6_poll_never_exits (status : Nat → Nat) (h : ∀ i, status i &&& 0x08 ≠ 0)
    (i n : Nat) : pollExitsFrom status i n = false :=
  pollStuck_of_bit_set status h i n

/-- Witness for C6: the concrete always-measuring stub, started at read 0
with 100 iterations of fuel. -/
theorem C6_poll_never_exits_witness : pollExitsFrom (fun _ => 0x08) 0 100 = false :=
  C6_poll_never_exits (fun _ => 0x08)
    (fun _ => show (0x08 : Nat) &&& 0x08 ≠ 0 by decide) 0 100

/-! ### C9 -/

/-- C9 (counterexample): `t_fine` is persisted on the device object: calling
`read_compensated_data` on an object whose `t_fine` is 0 leaves the computed
(non-zero) `t_fine` stored on the object after the call returns. -/
theorem C9_t_fine_persisted_cex :
    (read_compensated_data (DeviceState.mk calibT2 0) 524288 0 0).1.t_fine ≠ 0 := by
  decide

/-- C9 (amended): `self.t_fine` is stored on the device object and persists
across calls, but each call overwrites it before any read: the outputs and
the post-call state of `read_compensated_data` are independent of the
pre-call `t_fine`, depending only on the calibration coefficients and the
raw sample, and the post-call `t_fine` is the one computed from the current
raw temperature. -/
theorem C9_t_fine_overwritten (c : Calib) (a b raw_temp raw_press raw_hum : Int) :
    read_compensated_data (DeviceState.mk c a) raw_temp raw_press raw_hum =
      read_compensated_data (DeviceState.mk c b) raw_temp raw_press raw_hum ∧
    (read_compensated_data (DeviceState.mk c a) raw_temp raw_press raw_hum).1.t_fine =
      tFine raw_temp c :=
  ⟨rfl, rfl⟩

/-! ### C4 -/

/-- A 26-byte block that separates the two block-1 decodings: the high byte
of the `dig_P1` field (offset 7) is 0x80. -/
def block1Cex : List Nat :=
  [0, 0, 0, 0, 0, 0, 0, 128, 0, 0, 0, 0, 0,
   0, 0, 0, 0, 0, 0, 0, 0, 0, 0, 0, 0, 0]

/-- C4 (counterexample): the source decoder (format `<HhhHhhhhhhhhBB`, with
`dig_P1` unsigned) and the decoder the claim describes (11 signed 16-bit
values after the first) disagree on a block whose `dig_P1` bytes read 0x8000:
the source decodes 32768, the claimed layout -32768. -/
theorem C4_block1_cex : decodeBlock1 block1Cex ≠ decodeBlock1Claim block1Cex := by
  decide

/-- C4 (amended): for every 26-byte first calibration block, the decoder
interprets it as one little-endian unsigned 16-bit value (`dig_T1`), two
little-endian signed 16-bit temperature values, one little-endian unsigned
16-bit value (`dig_P1`), eight little-endian signed 16-bit pressure values,
then one unused byte and one unsigned 8-bit value (`dig_H1`), in exactly
that field order. -/
theorem C4_block1_fields (b : List Nat) : decodeBlock1 b = block1Layout b := rfl

/-! ### C10 -/

/-- C10 (counterexample): a truthy but too-short `result` (the non-empty
1-element container `[0]`) does not make `read_compensated_data` write the
outputs and return the same object — the first out-of-range item assignment
raises `IndexError` (modelled as `none`). -/
theorem C10_short_result_cex :
    returnResult 1 2 3 (some [0]) = none ∧
    ¬ ∃ l2, returnResult 1 2 3 (some [0]) = some (l2, true) := by
  refine ⟨by decide, ?_⟩
  rintro ⟨l2, hl⟩
  rw [show returnResult 1 2 3 (some [0]) = none by decide] at hl
  cases hl

/-- C10 (amended): when `read_compensated_data` is called with a truthy
`result` that has at least 3 slots, it writes temperature, pressure and
humidity into indices 0, 1, 2 and returns that same object; when called with
`None` or a falsy (empty) container, the argument is untouched and a freshly
allocated 3-element array `(temp, pressure, humidity)` is returned
instead. -/
theorem C10_result_argument (temp pressure humidity : Int) (l : List Int)
    (h : 3 ≤ l.length) :
    returnResult temp pressure humidity (some l) =
      some (((l.set 0 temp).set 1 pressure).set 2 humidity, true) ∧
    returnResult temp pressure humidity none =
      some ([temp, pressure, humidity], false) ∧
    returnResult temp pressure humidity (some []) =
      some ([temp, pressure, humidity], false) := by
  refine ⟨?_, rfl, rfl⟩
  obtain ⟨a, l1, rfl⟩ : ∃ a t, l = a :: t := by
    cases l with
    | nil => simp at h
    | cons a t => exact ⟨a, t, rfl⟩
  obtain ⟨b, l2, rfl⟩ : ∃ b t, l1 = b :: t := by
    cases l1 with
    | nil => simp at h
    | cons b t => exact ⟨b, t, rfl⟩
  obtain ⟨d, l3, rfl⟩ : ∃ d t, l2 = d :: t := by
    cases l2 with
    | nil => simp at h
    | cons d t => exact ⟨d, t, rfl⟩
  simp [returnResult, listSet?]

/-- Witness for C10: the concrete 3-element container `[0, 0, 0]`. -/
theorem C10_result_argument_witness :
    returnResult 1 2 3 (some [0, 0, 0]) = some ([1, 2, 3], true) ∧
    returnResult 1 2 3 none = some ([1, 2, 3], false) ∧
    returnResult 1 2 3 (some []) = some ([1, 2, 3], false) :=
  C10_result_argument 1 2 3 [0, 0, 0] (by decide)

/-! ### C7 -/

/-- C7: constructing the driver with the out-of-range oversampling mode 6
does fail before any bus transaction, but the `ValueError` that propagates
does not name the field and value: the template `msg_error` mixes automatic
and manual field numbering, so `str.format` itself raises `ValueError` with
CPython's fixed numbering message instead of the intended text; the filter
and scale templates (manual numbering only) do produce the naming message,
shown here for the out-of-range filter level 5 and scale X. -/
theorem C7_mode_error_message :
    bme280_init 6 5 1 "C" 4 0x76 = Except.error autoThenManualMsg ∧
    autoThenManualMsg ≠ "Unexpected temperature operating mode value 6." ∧
    bme280_init 2 5 1 "C" 5 0x76 =
      Except.error "Unexpected low pass IIR filter setting value 5." ∧
    bme280_init 2 5 1 "X" 4 0x76 =
      Except.error "Unexpected temperature scale value X." :=
  ⟨rfl, by decide, rfl, rfl⟩

/-! ### C3 -/

/-- C3: in the pressure stage of `read_compensated_data`, whenever the
computed divisor `var1` is exactly zero the pressure result is zero and the
dividing chain is not evaluated; for every other `var1` the result is the
nine-step chain `pressureChain` evaluated from `t_fine`, the raw pressure
and the coefficients. -/
theorem C3_pressure_guard (t_fine raw_press : Int) (c : Calib) :
    (pressureVar1 t_fine c = 0 → pressureStage t_fine raw_press c = 0) ∧
    (pressureVar1 t_fine c ≠ 0 →
      pressureStage t_fine raw_press c = pressureChain t_fine raw_press c) := by
  have hs : pressureStage t_fine raw_press c =
      if pressureVar1 t_fine c = 0 then 0 else pressureChain t_fine raw_press c := rfl
  constructor
  · intro h
    rw [hs, if_pos h]
  · intro h
    rw [hs, if_neg h]

/-- Witness for C3: the all-zero calibration set makes `var1 = 0` and the
pressure result 0; the set with `dig_P1 = 1` makes `var1 = 16384 ≠ 0` and
the result equal to the chain. -/
theorem C3_pressure_guard_witness :
    pressureStage 0 0 calibZero = 0 ∧
    pressureStage 0 0 calibP1 = pressureChain 0 0 calibP1 :=
  ⟨(C3_pressure_guard 0 0 calibZero).1 (by decide),
   (C3_pressure_guard 0 0 calibP1).2 (by decide)⟩

/-! ### C1 -/

/-- C1: for every 20-bit raw temperature value and every decoded calibration
set, the temperature stage of `read_compensated_data` computes exactly the
specified formulas for `var1`, `var2`, `t_fine` and the centidegree output,
and the arithmetic is exact — in particular `t_fine` stays inside the signed
32-bit range (every intermediate also fits a signed 64-bit integer, since
the unbounded-integer model computes these very values). -/
theorem C1_temperature_stage (raw_t : Int) (c : Calib)
    (h0 : 0 ≤ raw_t) (h1 : raw_t < 1048576) (hc : c.valid) :
    tempStage raw_t c = tempStageSpec raw_t c ∧
    -2147483648 ≤ tFine raw_t c ∧ tFine raw_t c < 2147483648 := by
  obtain ⟨hT1a, hT1b, hT2a, hT2b, hT3a, hT3b, -⟩ := hc
  have etf : tFine raw_t c =
      (sar raw_t 3 - shl c.dig_T1 1) * sar c.dig_T2 11 +
      sar (sar ((sar raw_t 4 - c.dig_T1) * (sar raw_t 4 - c.dig_T1)) 12 * c.dig_T3) 14 := rfl
  have hshl : shl c.dig_T1 1 = c.dig_T1 * 2 := by norm_num [shl]
  have hA1 : 0 ≤ sar raw_t 3 := sar_nonneg 3 h0
  have hA2 : sar raw_t 3 ≤ 131071 := by
    have h := sar_mono 3 (show raw_t ≤ 1048575 by omega)
    have hv : sar (1048575 : Int) 3 = 131071 := by decide
    rw [hv] at h
    exact h
  have hB1 : -16 ≤ sar c.dig_T2 11 := by
    have h := sar_mono 11 hT2a
    have hv : sar (-32768 : Int) 11 = -16 := by decide
    rw [hv] at h
    exact h
  have hB2 : sar c.dig_T2 11 ≤ 15 := by
    have h := sar_mono 11 (show c.dig_T2 ≤ 32767 by omega)
    have hv : sar (32767 : Int) 11 = 15 := by decide
    rw [hv] at h
    exact h
  have habs_a : |sar raw_t 3 - shl c.dig_T1 1| ≤ 131071 := by
    rw [abs_le, hshl]
    omega
  have habs_b : |sar c.dig_T2 11| ≤ 16 := by
    rw [abs_le]
    omega
  have hvar1 : |(sar raw_t 3 - shl c.dig_T1 1) * sar c.dig_T2 11| ≤ 2097136 := by
    rw [abs_mul]
    calc |sar raw_t 3 - shl c.dig_T1 1| * |sar c.dig_T2 11| ≤ 131071 * 16 :=
      mul_le_mul habs_a habs_b (abs_nonneg _) (by norm_num)
    _ = 2097136 := by norm_num
  have hC1 : 0 ≤ sar raw_t 4 := sar_nonneg 4 h0
  have hC2 : sar raw_t 4 ≤ 65535 := by
    have h := sar_mono 4 (show raw_t ≤ 1048575 by omega)
    have hv : sar (1048575 : Int) 4 = 65535 := by decide
    rw [hv] at h
    exact h
  have habs_c : |sar raw_t 4 - c.dig_T1| ≤ 65535 := by
    rw [abs_le]
    omega
  have hsq1 : 0 ≤ (sar raw_t 4 - c.dig_T1) * (sar raw_t 4 - c.dig_T1) :=
    mul_self_nonneg _
  have hsq2 : (sar raw_t 4 - c.dig_T1) * (sar raw_t 4 - c.dig_T1) ≤ 4294836225 := by
    obtain ⟨hd1, hd2⟩ := abs_le.mp habs_c
    nlinarith
  have hs1a : 0 ≤ sar ((sar raw_t 4 - c.dig_T1) * (sar raw_t 4 - c.dig_T1)) 12 :=
    sar_nonneg 12 hsq1
  have hs1b : sar ((sar raw_t 4 - c.dig_T1) * (sar raw_t 4 - c.dig_T1)) 12 ≤ 1048544 := by
    have h := sar_mono 12 hsq2
    have hv : sar (4294836225 : Int) 12 = 1048544 := by decide
    rw [hv] at h
    exact h
  have habs_s1 : |sar ((sar raw_t 4 - c.dig_T1) * (sar raw_t 4 - c.dig_T1)) 12| ≤ 1048544 := by
    rw [abs_le]
    omega
  have habs_T3 : |c.dig_T3| ≤ 32768 := by
    rw [abs_le]
    omega
  have habs_m : |sar ((sar raw_t 4 - c.dig_T1) * (sar raw_t 4 - c.dig_T1)) 12 * c.dig_T3| ≤
      34358689792 := by
    rw [abs_mul]
    calc |sar ((sar raw_t 4 - c.dig_T1) * (sar raw_t 4 - c.dig_T1)) 12| * |c.dig_T3| ≤
        1048544 * 32768 := mul_le_mul habs_s1 habs_T3 (abs_nonneg _) (by norm_num)
    _ = 34358689792 := by norm_num
  obtain ⟨hm1, hm2⟩ := abs_le.mp habs_m
  have hv2a : -2097088 ≤
      sar (sar ((sar raw_t 4 - c.dig_T1) * (sar raw_t 4 - c.dig_T1)) 12 * c.dig_T3) 14 := by
    have h := sar_mono 14 hm1
    have hv : sar (-34358689792 : Int) 14 = -2097088 := by decide
    rw [hv] at h
    exact h
  have hv2b :
      sar (sar ((sar raw_t 4 - c.dig_T1) * (sar raw_t 4 - c.dig_T1)) 12 * c.dig_T3) 14 ≤
        2097088 := by
    have h := sar_mono 14 hm2
    have hv : sar (34358689792 : Int) 14 = 2097088 := by decide
    rw [hv] at h
    exact h
  obtain ⟨hw1, hw2⟩ := abs_le.mp hvar1
  refine ⟨rfl, ?_, ?_⟩ <;> rw [etf] <;> linarith

/-- Witness for C1: the raw value 0 and the all-zero calibration set. -/
theorem C1_temperature_stage_witness :
    tempStage 0 calibZero = tempStageSpec 0 calibZero ∧
    -2147483648 ≤ tFine 0 calibZero ∧ tFine 0 calibZero < 2147483648 :=
  C1_temperature_stage 0 calibZero (by decide) (by decide) (by decide)

/-! ### C8 -/

/-- Bitwise or of non-negative integers is the or of the naturals. -/
theorem natCast_lor (m n : Nat) :
    Int.lor (m : Int) (n : Int) = ((m ||| n : Nat) : Int) := rfl

set_option maxRecDepth 40000 in
/-- Or-ing a low nibble into a value with a clear low nibble is addition. -/
theorem lor_mul16 : ∀ a, a < 128 → ∀ r, r < 16 → (a * 16) ||| r = a * 16 + r := by
  decide

set_option maxRecDepth 40000 in
/-- Masking a byte with 0xF is remainder modulo 16. -/
theorem and_mod16 : ∀ d, d < 256 → d &&& 15 = d % 16 := by decide

/-- C8 (counterexample): on the 7-byte second calibration block whose byte at
offset 3 is 0x80, the sign-extending `&`/`|` decoder of `bme280.py` yields a
negative `dig_H4` while the unsigned `%`/shift decoder of
`bme280_microbit.py` yields 2048, so the two disagree. -/
theorem C8_digH4_cex :
    digH4_main [0, 0, 0, 128, 0, 0, 0] ≠ digH4_microbit [0, 0, 0, 128, 0, 0, 0] := by
  have hm : digH4_microbit [0, 0, 0, 128, 0, 0, 0] = 2048 := by decide
  have hneg : digH4_main [0, 0, 0, 128, 0, 0, 0] = Int.negSucc (Nat.ldiff 2047 0) := rfl
  intro h
  have hlt := Int.negSucc_lt_zero (Nat.ldiff 2047 0)
  rw [← hneg, h, hm] at hlt
  norm_num at hlt

/-- C8 (amended): for every 7-byte second calibration block whose sign bytes
(offsets 3 and 5) are below 0x80, the `dig_H4` and `dig_H5` coefficients
computed by the `&`/`|` nibble-packing decoder of `bme280.py` equal the
values computed by the `%`/shift decoder of `bme280_microbit.py`; when a
sign byte has its top bit set the decoders disagree (see the
counterexample). -/
theorem C8_digH4H5_agree (b : List Nat)
    (h3 : b.getD 3 0 < 128) (h4 : b.getD 4 0 < 256) (h5 : b.getD 5 0 < 128) :
    digH4_main b = digH4_microbit b ∧ digH5_main b = digH5_microbit b := by
  have hand : b.getD 4 0 &&& 15 = b.getD 4 0 % 16 := and_mod16 _ h4
  have hand_lt : b.getD 4 0 &&& 15 < 16 := by
    have h := @Nat.and_le_right (b.getD 4 0) 15
    omega
  have hshr_lt : b.getD 4 0 >>> 4 < 16 := by
    rw [Nat.shiftRight_eq_div_pow]
    omega
  constructor
  · unfold digH4_main digH4_microbit
    simp only [s8at]
    rw [if_pos h3, shl]
    have hcast : ((b.getD 3 0 : Nat) : Int) * 2 ^ 4 = ((b.getD 3 0 * 16 : Nat) : Int) := by
      push_cast
      ring
    rw [hcast, natCast_lor]
    norm_cast
    rw [Nat.shiftLeft_eq, lor_mul16 _ h3 _ hand_lt, hand]
  · unfold digH5_main digH5_microbit
    simp only [s8at]
    rw [if_pos h5, shl]
    have hcast : ((b.getD 5 0 : Nat) : Int) * 2 ^ 4 = ((b.getD 5 0 * 16 : Nat) : Int) := by
      push_cast
      ring
    rw [hcast, natCast_lor]
    norm_cast
    rw [Nat.shiftLeft_eq, lor_mul16 _ h5 _ hshr_lt]

/-- Witness for C8: the concrete block with bytes 1, 0xAB, 2 at offsets
3, 4, 5. -/
theorem C8_digH4H5_agree_witness :
    digH4_main [0, 0, 0, 1, 171, 2, 0] = digH4_microbit [0, 0, 0, 1, 171, 2, 0] ∧
    digH5_main [0, 0, 0, 1, 171, 2, 0] = digH5_microbit [0, 0, 0, 1, 171, 2, 0] :=
  C8_digH4H5_agree [0, 0, 0, 1, 171, 2, 0] (by decide) (by decide) (by decide)

end BME280
